import Mathlib

/-!
Verification of the Disgordian gateway client (Go) against its
natural-language specification.

The development shallowly embeds the most complete iteration of the client:
the select-loop version whose pieces are the wire structure Payload, the
handshake function init, the main select loop (sequence tracking, heartbeat
construction, shutdown), ReadBuffer, and the event handler handleMessage.

Go machine integers are modelled as Int (no overflow is relevant here);
Go nil-able pointers are modelled as Option; Go panics are modelled as the
error branch of Except.
-/

/--
The raw JSON object that can sit in an envelope's d field, exposed lazily:
the Go code stores it as a raw message pointer and decodes it only at the
two use sites (the Hello payload's heartbeat_interval in init, and the
DMessage fields in handleMessage).  Each JSON key that those use sites look
at is modelled as an optional field; none records that the key is absent
(or not of the expected shape, which encoding/json treats the same way by
leaving the target field at its zero value).
-/
structure DRaw where
  heartbeat_interval : Option Int := none
  id : Option String := none
  channel_id : Option String := none
  content : Option String := none
  timestamp : Option String := none
  user_id : Option String := none
  deriving DecidableEq

/--
Go source: type Payload struct with fields Op *int, S int, T string,
D *json.RawMessage.  The source comment on Op reads: Op is a pointer
because we need to know the difference between 0 and nil.  Accordingly Op
is an Option here, while S and T are plain zero-defaulted values exactly as
in the Go struct, and D is the nil-able raw payload pointer.
-/
structure Payload where
  Op : Option Int
  S : Int
  T : String
  D : Option DRaw
  deriving DecidableEq

/--
One inbound JSON envelope at the wire level, before it is decoded into the
Go Payload struct: each protocol field is either absent or carries a value.
An absent or JSON-null d is modelled as none, matching encoding/json which
leaves a pointer field nil in both cases.
-/
structure JsonEnvelope where
  op : Option Int := none
  s : Option Int := none
  t : Option String := none
  d : Option DRaw := none
  deriving DecidableEq

/--
The effect of websocket.JSON.Receive / json.Unmarshal of one envelope into
the Go Payload struct: the pointer field Op becomes nil exactly when the op
key is absent, while the plain fields S and T fall back to their Go zero
values 0 and the empty string, and D keeps the raw payload (nil when absent
or null).
-/
def decodePayload (e : JsonEnvelope) : Payload :=
  { Op := e.op, S := e.s.getD 0, T := e.t.getD "", D := e.d }

/-- Go source: type DMessage struct, the shape of a Discord Message object. -/
structure DMessage where
  Id : String
  Channel_id : String
  Content : String
  Timestamp : String
  User_id : String
  deriving DecidableEq

/--
json.Unmarshal of a raw d payload into a DMessage value: absent keys leave
the string fields at their zero value, the empty string.
-/
def decodeDMessage (d : DRaw) : DMessage :=
  { Id := d.id.getD ""
    Channel_id := d.channel_id.getD ""
    Content := d.content.getD ""
    Timestamp := d.timestamp.getD ""
    User_id := d.user_id.getD "" }

/-- The Go panics the embedded fragments can raise. -/
inductive GoPanic where
  /-- Dereference of a nil pointer, as in star-msg.D when D is nil. -/
  | nilDeref
  /-- The init panic: Couldn't find Op of incoming payload. -/
  | opMissing
  /-- The init panic: Couldn't get heartbeat interval from the payload. -/
  | hbMissing
  deriving DecidableEq

/-- One call to SendRequest (method, Discord path, serialized JSON body). -/
structure RestCall where
  method : String
  url : String
  body : String
  deriving DecidableEq

/-- json.Marshal of the anonymous struct carrying Content "!pong". -/
def pongBody : String := "\x7b\"content\":\"!pong\"\x7d"

/--
Go source, handleMessage: on an envelope tagged MESSAGE_CREATE it runs
json.Unmarshal on the dereferenced pointer msg.D with no nil guard (a nil
D is therefore a panic), decodes the DMessage, and on content "!ping"
issues one SendRequest POST to the channel's messages path.  Every other
tag falls through with no action.  The returned list holds the REST calls
made.
-/
def handleMessage (msg : Payload) : Except GoPanic (List RestCall) :=
  if msg.T = "MESSAGE_CREATE" then
    match msg.D with
    | none => .error .nilDeref
    | some d =>
      let content := decodeDMessage d
      if content.Content = "!ping" then
        .ok [{ method := "POST"
               url := "/channels/" ++ content.Channel_id ++ "/messages"
               body := pongBody }]
      else
        .ok []
  else
    .ok []

/-- The successful outcome of the handshake in the Go init function. -/
structure InitOk where
  /-- The heartbeat interval extracted from the Hello payload. -/
  hbLength : Int
  /-- Whether the Identify (login, op 2) message was sent. -/
  identifySent : Bool
  deriving DecidableEq

/--
Go source, init (handshake): after dialing, receive the first payload;
panic if its Op is nil; json.Unmarshal the dereferenced payload.D into the
hello struct (a nil D is a nil-pointer panic); take Heartbeat_interval,
which is 0 when the key is absent; panic if it is 0; otherwise send the
Identify message and return.  Note the received opcode's value is never
compared against anything: only its presence is checked.
-/
def initHandshake (payload : Payload) : Except GoPanic InitOk :=
  if payload.Op = none then .error .opMissing
  else
    match payload.D with
    | none => .error .nilDeref
    | some d =>
      let hbLength := d.heartbeat_interval.getD 0
      if hbLength = 0 then .error .hbMissing
      else .ok { hbLength := hbLength, identifySent := true }

/-- The long-lived loops the program can start after the handshake. -/
inductive LoopName where
  /-- ReadBuffer, the inbound pump goroutine. -/
  | readBuffer
  /-- The time.Tick pacemaker driving heartbeats. -/
  | pacemaker
  /-- The main select loop (outbound dispatcher and event router). -/
  | mainLoop
  deriving DecidableEq

/--
Go program structure: init runs before main, and a panic in init aborts
the process, so the goroutine ReadBuffer, the pacemaker ticker and the
main select loop are started only when the handshake on the first inbound
payload completes without a panic.
-/
def programStartedLoops (first : Payload) : List LoopName :=
  match initHandshake first with
  | .error _ => []
  | .ok _ => [.readBuffer, .pacemaker, .mainLoop]

/--
Go source, the main select loop's sequence update on a received payload:
if msg.S != 0 then seqNo = msg.S, else seqNo is left alone.
-/
def updateSeq (seqNo : Int) (msg : Payload) : Int :=
  if msg.S ≠ 0 then msg.S else seqNo

/--
fmt.Sprintf applied to the HEARTBEAT_MSG template, which is the JSON text
of an envelope with op 1 and d equal to the current sequence number.
-/
def heartbeatMsg (seqNo : Int) : String :=
  "\x7b\"op\": 1, \"d\": " ++ toString seqNo ++ "\x7d"

/--
One wakeup of the main select loop: a payload delivered on RecvQueue, the
closure of RecvQueue (which ReadBuffer performs when the websocket read
fails), a message delivered on SendQueue, the closure of SendQueue, a
pacemaker tick, or an os.Interrupt signal.
-/
inductive Event where
  | recv (msg : Payload)
  | recvClosed
  | send (msg : String)
  | sendClosed
  | tick
  | signal
  deriving DecidableEq

/--
The observable state of the main function: the tracked sequence number
(var seqNo int, so initially 0), the messages written to the websocket in
order, the payloads handed to go handleMessage in order, how many times
the deferred ws.Close has run, and whether main is still in its loop.
-/
structure LoopState where
  seqNo : Int
  sent : List String
  forwarded : List Payload
  wsCloseCount : Nat
  running : Bool
  deriving DecidableEq

/-- The state of main when it enters its select loop. -/
def initState : LoopState := { seqNo := 0, sent := [], forwarded := [], wsCloseCount := 0, running := true }

/--
main returning: the deferred ws.Close() runs exactly at this point, once,
because Go runs a deferred call once per function return.
-/
def mainReturn (st : LoopState) : LoopState :=
  { st with running := false, wsCloseCount := st.wsCloseCount + 1 }

/--
One iteration of the main select loop.  A received payload updates the
sequence number and, when its Op is 0 (Dispatch), is handed to
go handleMessage; closure of either queue and an os.Interrupt each make
main return (firing the deferred close); a pacemaker tick formats and
sends a heartbeat carrying the current sequence number.  After main has
returned no case runs any more.
-/
def step (st : LoopState) (e : Event) : LoopState :=
  if st.running then
    match e with
    | .recv msg =>
        { st with
          seqNo := updateSeq st.seqNo msg
          forwarded := if msg.Op = some 0 then st.forwarded ++ [msg] else st.forwarded }
    | .recvClosed => mainReturn st
    | .send m => { st with sent := st.sent ++ [m] }
    | .sendClosed => mainReturn st
    | .tick => { st with sent := st.sent ++ [heartbeatMsg st.seqNo] }
    | .signal => mainReturn st
  else st

/-- A whole run of main over a finite schedule of select wakeups. -/
def mainLoopRun (events : List Event) : LoopState :=
  events.foldl step initState

/-- The select cases that make main return (and so fire the deferred close). -/
def isTrigger : Event → Bool
  | .recvClosed => true
  | .sendClosed => true
  | .signal => true
  | _ => false

/-- The sequence update of the select loop iterated over a list of s values. -/
def seqFold (l : List Int) (seqNo : Int) : Int :=
  l.foldl (fun acc s => if s ≠ 0 then s else acc) seqNo

/--
The successive values of the tracked sequence number while the loop
processes a list of payloads, starting from a given value.
-/
def seqTrace (msgs : List Payload) (seqNo : Int) : List Int :=
  match msgs with
  | [] => [seqNo]
  | m :: rest => seqNo :: seqTrace rest (updateSeq seqNo m)

/-- The nonzero s values of a list of payloads, in arrival order. -/
def nonzeroSeqs (msgs : List Payload) : List Int :=
  (msgs.map Payload.S).filter (fun s => decide (s ≠ 0))

/--
Claim C2: envelope decoding distinguishes an absent opcode from opcode 0.
Decoding an envelope without an op field yields a none opcode and never a
defaulted 0; decoding op equal to 0 yields some 0; and a decoded payload
whose opcode is none is treated as malformed, making the handshake panic.
-/
theorem op_zero_vs_absent_distinguished (e : JsonEnvelope) :
    ((decodePayload e).Op = none ↔ e.op = none)
    ∧ (e.op = some 0 → (decodePayload e).Op = some 0)
    ∧ ((decodePayload e).Op = none →
        initHandshake (decodePayload e) = .error GoPanic.opMissing) := by
  refine ⟨Iff.rfl, fun h => h, fun h => ?_⟩
  simp [initHandshake, h]

/-- Witness for C2 at concrete envelopes with op 0 and with op absent. -/
theorem op_zero_vs_absent_distinguished_witness :
    (decodePayload { op := some 0 }).Op = some 0
    ∧ initHandshake (decodePayload { op := none }) = .error GoPanic.opMissing :=
  ⟨(op_zero_vs_absent_distinguished { op := some 0 }).2.1 rfl,
   (op_zero_vs_absent_distinguished { op := none }).2.2 rfl⟩

/--
Claim C7: an inbound envelope that carries no sequence field leaves the
tracked sequence number exactly unchanged, whatever the stored value is —
both through the bare update and through a full select-loop step.
-/
theorem absent_seq_field_noop (e : JsonEnvelope) (h : e.s = none) :
    (∀ seqNo : Int, updateSeq seqNo (decodePayload e) = seqNo)
    ∧ (∀ st : LoopState, (step st (Event.recv (decodePayload e))).seqNo = st.seqNo) := by
  have hS : (decodePayload e).S = 0 := by simp [decodePayload, h]
  refine ⟨fun seqNo => by simp [updateSeq, hS], fun st => ?_⟩
  cases hr : st.running <;> simp [step, hr, updateSeq, hS]

/-- Witness for C7 at a concrete envelope with no s field and stored value 7. -/
theorem absent_seq_field_noop_witness :
    updateSeq 7 (decodePayload { op := some 0, t := some "MESSAGE_CREATE" }) = 7 :=
  (absent_seq_field_noop { op := some 0, t := some "MESSAGE_CREATE" } rfl).1 7

/--
Counterexample to claim C8: two wire envelopes that differ exactly in
whether the sequence field is absent or carries the value zero decode to
the very same Payload, so the decoded representations do not differ and no
subsequent behaviour can tell the two inputs apart.
-/
theorem absent_vs_zero_seq_same_decode_cex :
    (JsonEnvelope.mk (some 0) none none none).s ≠ (JsonEnvelope.mk (some 0) (some 0) none none).s
    ∧ decodePayload (JsonEnvelope.mk (some 0) none none none)
        = decodePayload (JsonEnvelope.mk (some 0) (some 0) none none) :=
  ⟨by decide, rfl⟩

/--
Claim C8 amended: envelope decoding conflates a Dispatch envelope whose
sequence field is absent with one whose sequence field carries zero — both
decode to the same Payload with S equal to 0 — and the client's sequence
tracking treats the two identically, updating the tracked value in neither
case.
-/
theorem decode_conflates_absent_and_zero_seq (e : JsonEnvelope) (h : e.s = none) :
    decodePayload e = decodePayload { e with s := some 0 }
    ∧ (decodePayload e).S = 0
    ∧ (∀ seqNo : Int, updateSeq seqNo (decodePayload e) = seqNo)
    ∧ (∀ seqNo : Int, updateSeq seqNo (decodePayload { e with s := some 0 }) = seqNo) := by
  refine ⟨by simp [decodePayload, h], by simp [decodePayload, h],
    fun seqNo => by simp [updateSeq, decodePayload, h],
    fun seqNo => by simp [updateSeq, decodePayload]⟩

/-- Witness for the amended C8 at a concrete s-less Dispatch envelope. -/
theorem decode_conflates_absent_and_zero_seq_witness :
    decodePayload { op := some 0, t := some "GUILD_CREATE" }
      = decodePayload { op := some 0, s := some 0, t := some "GUILD_CREATE" }
    ∧ updateSeq 42 (decodePayload { op := some 0, t := some "GUILD_CREATE" }) = 42 :=
  ⟨(decode_conflates_absent_and_zero_seq { op := some 0, t := some "GUILD_CREATE" } rfl).1,
   (decode_conflates_absent_and_zero_seq { op := some 0, t := some "GUILD_CREATE" } rfl).2.2.1 42⟩

/--
Claim C10: handleMessage is panic-free only under the precondition that
the d payload is non-null.  A MESSAGE_CREATE envelope whose d pointer is
nil hits the unguarded dereference and panics, while any envelope whose d
is present is handled without a panic.
-/
theorem handleMessage_requires_nonnull_d (msg : Payload) :
    (msg.T = "MESSAGE_CREATE" → msg.D = none → handleMessage msg = .error GoPanic.nilDeref)
    ∧ (msg.D ≠ none → ∃ r, handleMessage msg = .ok r) := by
  constructor
  · intro hT hD
    simp [handleMessage, hT, hD]
  · intro hD
    match hh : msg.D with
    | none => exact absurd hh hD
    | some d =>
      by_cases hT : msg.T = "MESSAGE_CREATE"
      · by_cases hc : (decodeDMessage d).Content = "!ping"
        · exact ⟨[{ method := "POST"
                    url := "/channels/" ++ (decodeDMessage d).Channel_id ++ "/messages"
                    body := pongBody }], by simp [handleMessage, hT, hh, hc]⟩
        · exact ⟨[], by simp [handleMessage, hT, hh, hc]⟩
      · exact ⟨[], by simp [handleMessage, hT]⟩

/--
Witness for C10: a MESSAGE_CREATE payload with nil d panics, and one with
a present d is handled without a panic.
-/
theorem handleMessage_requires_nonnull_d_witness :
    handleMessage { Op := some 0, S := 1, T := "MESSAGE_CREATE", D := none }
        = .error GoPanic.nilDeref
    ∧ ∃ r, handleMessage { Op := some 0, S := 1, T := "MESSAGE_CREATE", D := some {} } = .ok r :=
  ⟨(handleMessage_requires_nonnull_d _).1 rfl rfl,
   (handleMessage_requires_nonnull_d _).2 (by decide)⟩

/--
Counterexample to claim C6: a first inbound envelope whose opcode is
present but equals 5 (not 10) nonetheless completes the handshake and
sends Identify, because init only checks that the opcode is non-nil and
never compares its value against 10.
-/
theorem wrong_opcode_handshake_proceeds_cex :
    (Payload.mk (some 5) 0 "" (some { heartbeat_interval := some 41250 })).Op ≠ some 10
    ∧ initHandshake (Payload.mk (some 5) 0 "" (some { heartbeat_interval := some 41250 }))
        = .ok { hbLength := 41250, identifySent := true } :=
  ⟨by decide, rfl⟩

/--
Claim C6 amended: during Handshaking the client blocks for exactly one
inbound envelope and requires its opcode to be present — an absent opcode
is fatal — but the opcode's value is never compared against 10, so a first
envelope with any present opcode whose payload carries a nonzero heartbeat
interval proceeds to send Identify.
-/
theorem handshake_checks_op_presence_only (p : Payload) :
    ((∃ r, initHandshake p = .ok r) ↔
      (p.Op ≠ none ∧ ∃ d, p.D = some d ∧ d.heartbeat_interval.getD 0 ≠ 0))
    ∧ (p.Op = none → initHandshake p = .error GoPanic.opMissing)
    ∧ (∀ r, initHandshake p = .ok r → r.identifySent = true) := by
  refine ⟨⟨?_, ?_⟩, fun h => by simp [initHandshake, h], fun r hr => ?_⟩
  · rintro ⟨r, hr⟩
    by_cases hop : p.Op = none
    · simp [initHandshake, hop] at hr
    · match hD : p.D with
      | none => simp [initHandshake, hop, hD] at hr
      | some d =>
        refine ⟨hop, d, rfl, ?_⟩
        intro h0
        simp [initHandshake, hop, hD, h0] at hr
  · rintro ⟨hop, d, hD, h0⟩
    exact ⟨{ hbLength := d.heartbeat_interval.getD 0, identifySent := true },
      by simp [initHandshake, hop, hD, h0]⟩
  · by_cases hop : p.Op = none
    · simp [initHandshake, hop] at hr
    · match hD : p.D with
      | none => simp [initHandshake, hop, hD] at hr
      | some d =>
        by_cases h0 : d.heartbeat_interval.getD 0 = 0
        · simp [initHandshake, hop, hD, h0] at hr
        · simp [initHandshake, hop, hD, h0] at hr
          rw [← hr]

/-- Witness for the amended C6: an envelope with a nil opcode is fatal. -/
theorem handshake_checks_op_presence_only_witness :
    initHandshake { Op := none, S := 0, T := "", D := none } = .error GoPanic.opMissing :=
  (handshake_checks_op_presence_only _).2.1 rfl

/--
Claim C3: a first inbound envelope whose payload carries heartbeat
interval 0 or no heartbeat interval at all (including a nil payload) makes
session establishment fail fatally, and none of the pacemaker, the
outbound dispatcher loop or the inbound pump is ever started in that run.
-/
theorem zero_interval_fatal_no_loops (p : Payload)
    (h : ∀ d, p.D = some d → d.heartbeat_interval.getD 0 = 0) :
    (∃ err, initHandshake p = .error err) ∧ programStartedLoops p = [] := by
  have hfail : ∃ err, initHandshake p = .error err := by
    by_cases hop : p.Op = none
    · exact ⟨.opMissing, by simp [initHandshake, hop]⟩
    · match hD : p.D with
      | none => exact ⟨.nilDeref, by simp [initHandshake, hop, hD]⟩
      | some d => exact ⟨.hbMissing, by simp [initHandshake, hop, hD, h d hD]⟩
  obtain ⟨err, he⟩ := hfail
  exact ⟨⟨err, he⟩, by simp [programStartedLoops, he]⟩

/--
Witness for C3: a Hello envelope whose payload carries heartbeat interval
0 aborts the handshake and starts no loop.
-/
theorem zero_interval_fatal_no_loops_witness :
    (∃ err, initHandshake (Payload.mk (some 10) 0 "" (some { heartbeat_interval := some 0 }))
        = .error err)
    ∧ programStartedLoops (Payload.mk (some 10) 0 "" (some { heartbeat_interval := some 0 })) = [] :=
  zero_interval_fatal_no_loops _ (by intro d hd; rw [Option.some_inj] at hd; rw [← hd]; rfl)

lemma step_not_running (st : LoopState) (e : Event) (h : st.running = false) :
    step st e = st := by
  simp [step, h]

lemma foldl_step_not_running (events : List Event) (st : LoopState) (h : st.running = false) :
    events.foldl step st = st := by
  induction events with
  | nil => rfl
  | cons e rest ih => rw [List.foldl_cons, step_not_running st e h]; exact ih

lemma step_recv_running (st : LoopState) (msg : Payload) :
    (step st (Event.recv msg)).running = st.running := by
  cases hr : st.running <;> simp [step, hr]

lemma step_recv_seqNo (st : LoopState) (msg : Payload) (h : st.running = true) :
    (step st (Event.recv msg)).seqNo = updateSeq st.seqNo msg := by
  simp [step, h]

lemma step_recv_sent (st : LoopState) (msg : Payload) (h : st.running = true) :
    (step st (Event.recv msg)).sent = st.sent := by
  simp [step, h]

lemma foldl_recv_running (msgs : List Payload) (st : LoopState) :
    ((msgs.map Event.recv).foldl step st).running = st.running := by
  induction msgs generalizing st with
  | nil => rfl
  | cons m rest ih =>
      rw [List.map_cons, List.foldl_cons, ih, step_recv_running]

lemma foldl_recv_seqNo (msgs : List Payload) (st : LoopState) (h : st.running = true) :
    ((msgs.map Event.recv).foldl step st).seqNo = seqFold (msgs.map Payload.S) st.seqNo := by
  induction msgs generalizing st with
  | nil => rfl
  | cons m rest ih =>
      have h2 : (step st (Event.recv m)).running = true := by
        rw [step_recv_running]; exact h
      rw [List.map_cons, List.foldl_cons, ih _ h2, step_recv_seqNo st m h]
      rfl

lemma foldl_recv_sent (msgs : List Payload) (st : LoopState) (h : st.running = true) :
    ((msgs.map Event.recv).foldl step st).sent = st.sent := by
  induction msgs generalizing st with
  | nil => rfl
  | cons m rest ih =>
      have h2 : (step st (Event.recv m)).running = true := by
        rw [step_recv_running]; exact h
      rw [List.map_cons, List.foldl_cons, ih _ h2, step_recv_sent st m h]

lemma step_nontrigger (st : LoopState) (e : Event) (h : st.running = true)
    (ht : isTrigger e = false) :
    (step st e).running = true ∧ (step st e).wsCloseCount = st.wsCloseCount := by
  cases e <;> simp_all [step, isTrigger]

lemma step_trigger (st : LoopState) (e : Event) (h : st.running = true)
    (ht : isTrigger e = true) :
    (step st e).running = false ∧ (step st e).wsCloseCount = st.wsCloseCount + 1 := by
  cases e <;> simp_all [step, isTrigger, mainReturn]

lemma foldl_close_count (events : List Event) :
    ∀ st : LoopState, st.running = true → st.wsCloseCount = 0 →
      (events.any isTrigger = true → (events.foldl step st).wsCloseCount = 1)
      ∧ (events.any isTrigger = false → (events.foldl step st).wsCloseCount = 0) := by
  induction events with
  | nil =>
      intro st h hc
      exact ⟨by simp, fun _ => by simpa using hc⟩
  | cons e rest ih =>
      intro st h hc
      cases ht : isTrigger e with
      | true =>
          obtain ⟨hr', hc'⟩ := step_trigger st e h ht
          refine ⟨fun _ => ?_, fun hall => ?_⟩
          · rw [List.foldl_cons, foldl_step_not_running rest _ hr', hc', hc]
          · simp [List.any_cons, ht] at hall
      | false =>
          obtain ⟨hr', hc'⟩ := step_nontrigger st e h ht
          have ih' := ih (step st e) hr' (by rw [hc', hc])
          refine ⟨fun hany => ?_, fun hall => ?_⟩
          · have hrest : rest.any isTrigger = true := by
              simpa [List.any_cons, ht] using hany
            rw [List.foldl_cons]; exact ih'.1 hrest
          · have hrest : rest.any isTrigger = false := by
              simpa [List.any_cons, ht] using hall
            rw [List.foldl_cons]; exact ih'.2 hrest

/--
Claim C4: over any run of the main loop in which at least one shutdown
trigger fires — the inbound read failing (closing RecvQueue), an external
interrupt signal, or closure of the outbound SendQueue — the connection's
close operation runs exactly once, also when several triggers occur in the
same run: the first trigger makes main return, firing the deferred
one-shot close, and every later wakeup is ignored.
-/
theorem close_invoked_exactly_once (events : List Event)
    (h : ∃ e ∈ events, isTrigger e = true) :
    (mainLoopRun events).wsCloseCount = 1 := by
  have hany : events.any isTrigger = true := by
    rw [List.any_eq_true]
    obtain ⟨e, he, ht⟩ := h
    exact ⟨e, he, ht⟩
  exact (foldl_close_count events initState rfl rfl).1 hany

/--
Witness for C4: a run in which all three shutdown triggers fire still
closes the connection exactly once.
-/
theorem close_invoked_exactly_once_witness :
    (mainLoopRun [Event.recvClosed, Event.signal, Event.sendClosed]).wsCloseCount = 1 :=
  close_invoked_exactly_once _ ⟨Event.recvClosed, by simp, rfl⟩

/--
Claim C9: in the Active state, a received envelope is handed to the
external event handler exactly when its opcode is 0 (Dispatch), whatever
its event-type tag; an envelope with any other present opcode, including
unrecognized ones, only updates the sequence number and is otherwise
ignored — no error is raised, the loop keeps running and the connection is
not closed.
-/
theorem dispatch_forwarded_unknown_ignored (msg : Payload) (st : LoopState)
    (h : st.running = true) :
    ((step st (Event.recv msg)).forwarded = st.forwarded ++ [msg] ↔ msg.Op = some 0)
    ∧ (msg.Op ≠ some 0 →
        step st (Event.recv msg) = { st with seqNo := updateSeq st.seqNo msg })
    ∧ (step st (Event.recv msg)).running = true
    ∧ (step st (Event.recv msg)).wsCloseCount = st.wsCloseCount := by
  refine ⟨⟨fun hf => ?_, fun hop => by simp [step, h, hop]⟩,
    fun hop => by simp [step, h, hop], ?_, ?_⟩
  · by_contra hop
    simp [step, h, hop] at hf
  · rw [step_recv_running]; exact h
  · by_cases hop : msg.Op = some 0 <;> simp [step, h, hop]

/--
Witness for C9: a Dispatch envelope with an unrecognized tag is forwarded,
and an envelope with the unrecognized opcode 42 leaves the loop running
with nothing forwarded.
-/
theorem dispatch_forwarded_unknown_ignored_witness :
    (step initState (Event.recv { Op := some 0, S := 2, T := "SOME_FUTURE_EVENT", D := none })).forwarded
      = initState.forwarded ++ [{ Op := some 0, S := 2, T := "SOME_FUTURE_EVENT", D := none }]
    ∧ (step initState (Event.recv { Op := some 42, S := 0, T := "", D := none })).running = true :=
  ⟨(dispatch_forwarded_unknown_ignored _ initState rfl).1.mpr rfl,
   (dispatch_forwarded_unknown_ignored { Op := some 42, S := 0, T := "", D := none } initState rfl).2.2.1⟩

/--
Counterexample to claim C5: an envelope with opcode 11 — not a Dispatch —
that carries the nonzero sequence number 5 changes the tracked sequence
from its initial 0 to 5, because the select loop's update looks only at
msg.S and never at the opcode.  So it is false that envelopes of any
opcode other than 0 leave the tracked sequence unchanged.
-/
theorem seq_updated_by_non_dispatch_cex :
    (Payload.mk (some 11) 5 "" none).Op ≠ some 0
    ∧ initState.seqNo = 0
    ∧ (mainLoopRun [Event.recv (Payload.mk (some 11) 5 "" none)]).seqNo = 5 :=
  ⟨by decide, rfl, rfl⟩

lemma seqTrace_head (msgs : List Payload) (acc : Int) :
    (seqTrace msgs acc).head? = some acc := by
  cases msgs <;> rfl

lemma seqTrace_chain (msgs : List Payload) :
    ∀ acc : Int, List.Chain' (· ≤ ·) (acc :: nonzeroSeqs msgs) →
      List.Chain' (· ≤ ·) (seqTrace msgs acc) := by
  induction msgs with
  | nil => intro acc _; exact List.chain'_singleton acc
  | cons m rest ih =>
      intro acc h
      by_cases hS : m.S = 0
      · have hnz : nonzeroSeqs (m :: rest) = nonzeroSeqs rest := by
          simp [nonzeroSeqs, hS]
        rw [hnz] at h
        have hupd : updateSeq acc m = acc := by simp [updateSeq, hS]
        rw [seqTrace, hupd, List.chain'_cons']
        refine ⟨?_, ih acc h⟩
        intro y hy
        rw [seqTrace_head, Option.mem_def, Option.some_inj] at hy
        rw [← hy]
      · have hnz : nonzeroSeqs (m :: rest) = m.S :: nonzeroSeqs rest := by
          simp [nonzeroSeqs, hS]
        rw [hnz, List.chain'_cons] at h
        obtain ⟨hab, hrest⟩ := h
        have hupd : updateSeq acc m = m.S := by simp [updateSeq, hS]
        rw [seqTrace, hupd, List.chain'_cons']
        refine ⟨?_, ih m.S hrest⟩
        intro y hy
        rw [seqTrace_head, Option.mem_def, Option.some_inj] at hy
        rw [← hy]; exact hab

/--
Claim C5 amended: the tracked sequence number changes exactly on envelopes
that carry a nonzero sequence value, regardless of opcode — an envelope
with sequence 0 (in particular one with no sequence field) leaves it
unchanged, and one with a nonzero sequence sets it to that value even when
the opcode is not 0.  Consequently the tracked value is monotonically
non-decreasing over a run whenever the nonzero sequence values arrive in
non-decreasing order starting at or above the initial value 0 — but not
over arbitrary runs, and not only on Dispatch envelopes.
-/
theorem seq_monotone_characterised (msgs : List Payload)
    (h : List.Chain' (· ≤ ·) (0 :: nonzeroSeqs msgs)) :
    List.Chain' (· ≤ ·) (seqTrace msgs 0)
    ∧ (∀ seqNo : Int, ∀ m : Payload, m.S = 0 → updateSeq seqNo m = seqNo)
    ∧ (∀ seqNo : Int, ∀ m : Payload, m.S ≠ 0 → updateSeq seqNo m = m.S) :=
  ⟨seqTrace_chain msgs 0 h,
   fun seqNo m hm => by simp [updateSeq, hm],
   fun seqNo m hm => by simp [updateSeq, hm]⟩

/--
Witness for the amended C5: a run with a zero-sequence envelope, a
non-Dispatch envelope carrying 2 and a Dispatch envelope carrying 5 has a
non-decreasing sequence trace.
-/
theorem seq_monotone_characterised_witness :
    List.Chain' (· ≤ ·)
      (seqTrace [Payload.mk (some 0) 0 "" none, Payload.mk (some 11) 2 "" none,
        Payload.mk (some 0) 5 "MESSAGE_CREATE" none] 0) :=
  (seq_monotone_characterised _ (by norm_num [nonzeroSeqs, List.chain'_cons])).1

lemma step_tick_sent (st : LoopState) (h : st.running = true) :
    (step st Event.tick).sent = st.sent ++ [heartbeatMsg st.seqNo] := by
  simp [step, h]

lemma seqFold_take_all_nonzero (l : List Int) :
    ∀ (acc : Int) (k : Nat), k < l.length → (∀ x ∈ l, x ≠ 0) →
      seqFold (l.take (k + 1)) acc = l.getD k 0 := by
  induction l with
  | nil => intro acc k hk _; simp at hk
  | cons a t ih =>
      intro acc k hk hnz
      cases k with
      | zero =>
          have ha : a ≠ 0 := hnz a (List.mem_cons_self a t)
          simp [seqFold, ha]
      | succ k =>
          have hk' : k < t.length := by simpa using hk
          have hstep : seqFold ((a :: t).take (k + 1 + 1)) acc
              = seqFold (t.take (k + 1)) (if a ≠ 0 then a else acc) := by
            rw [List.take_succ_cons]; rfl
          rw [hstep, ih _ k hk' (fun x hx => hnz x (List.mem_cons_of_mem a hx)),
            List.getD_cons_succ]

lemma seqFold_take_sorted (ss : List Int) (hp : List.Pairwise (· < ·) ss)
    (h0 : ∀ x ∈ ss, 0 ≤ x) (k : Nat) (hk : k < ss.length) :
    seqFold (ss.take (k + 1)) 0 = ss.getD k 0 := by
  cases ss with
  | nil => simp at hk
  | cons a t =>
      cases k with
      | zero =>
          by_cases ha : a = 0
          · rw [ha]; simp [seqFold]
          · simp [seqFold, ha]
      | succ k =>
          have hk' : k < t.length := by simpa using hk
          have hlt : ∀ x ∈ t, a < x := (List.pairwise_cons.mp hp).1
          have hnz : ∀ x ∈ t, x ≠ 0 := fun x hx =>
            ne_of_gt (lt_of_le_of_lt (h0 a (List.mem_cons_self a t)) (hlt x hx))
          have hstep : seqFold ((a :: t).take (k + 1 + 1)) 0
              = seqFold (t.take (k + 1)) (if a ≠ 0 then a else 0) := by
            rw [List.take_succ_cons]; rfl
          rw [hstep, seqFold_take_all_nonzero t _ k hk' hnz, List.getD_cons_succ]

/--
Claim C1: feed the Active-state loop a run of Dispatch envelopes whose
sequence numbers are strictly increasing (and, as protocol sequence
numbers, non-negative).  After the loop has processed the first k plus one
of them its tracked sequence equals the k-th envelope's sequence number,
and a pacemaker tick at that point constructs exactly the heartbeat text
with op 1 whose d payload is that number — read-after-write visibility of
the k-th update in the next heartbeat.
-/
theorem heartbeat_carries_current_seq (msgs : List Payload) (k : Nat)
    (hk : k < msgs.length)
    (hops : ∀ m ∈ msgs, m.Op = some 0)
    (hinc : List.Pairwise (· < ·) (msgs.map Payload.S))
    (hpos : ∀ m ∈ msgs, 0 ≤ m.S) :
    (mainLoopRun ((msgs.take (k + 1)).map Event.recv)).seqNo = (msgs.map Payload.S).getD k 0
    ∧ (step (mainLoopRun ((msgs.take (k + 1)).map Event.recv)) Event.tick).sent
        = (mainLoopRun ((msgs.take (k + 1)).map Event.recv)).sent
          ++ [heartbeatMsg ((msgs.map Payload.S).getD k 0)] := by
  have hrun : (mainLoopRun ((msgs.take (k + 1)).map Event.recv)).running = true := by
    rw [mainLoopRun, foldl_recv_running]; rfl
  have hseq : (mainLoopRun ((msgs.take (k + 1)).map Event.recv)).seqNo
      = (msgs.map Payload.S).getD k 0 := by
    rw [mainLoopRun, foldl_recv_seqNo _ _ rfl]
    rw [show (msgs.take (k + 1)).map Payload.S = (msgs.map Payload.S).take (k + 1) from
      List.map_take Payload.S msgs (k + 1)]
    exact seqFold_take_sorted (msgs.map Payload.S) hinc
      (by intro x hx; obtain ⟨m, hm, rfl⟩ := List.mem_map.mp hx; exact hpos m hm)
      k (by simpa using hk)
  refine ⟨hseq, ?_⟩
  rw [step_tick_sent _ hrun, hseq]

/--
Witness for C1: after Dispatch envelopes with sequence numbers 1 and 3,
the tracked sequence is 3 and a tick constructs the heartbeat carrying 3.
-/
theorem heartbeat_carries_current_seq_witness :
    (mainLoopRun (([Payload.mk (some 0) 1 "READY" none,
        Payload.mk (some 0) 3 "MESSAGE_CREATE" none].take 2).map Event.recv)).seqNo = 3
    ∧ (step (mainLoopRun (([Payload.mk (some 0) 1 "READY" none,
        Payload.mk (some 0) 3 "MESSAGE_CREATE" none].take 2).map Event.recv)) Event.tick).sent
      = (mainLoopRun (([Payload.mk (some 0) 1 "READY" none,
        Payload.mk (some 0) 3 "MESSAGE_CREATE" none].take 2).map Event.recv)).sent
        ++ [heartbeatMsg 3] :=
  heartbeat_carries_current_seq
    [Payload.mk (some 0) 1 "READY" none, Payload.mk (some 0) 3 "MESSAGE_CREATE" none]
    1 (by decide) (by decide) (by decide) (by decide)
